import Mathlib

/-!
Shallow embedding of the go-creditdb client library (errors.go and the
taxonomy-classifying creditdb.go module, the behaviour the spec mandates
in its design notes).

Modelling conventions:
- Go strings are `String`, `uint` page numbers are `Nat`, HTTP status
  codes are `Nat`.
- The external JSON capability is modelled by a `DecodeResult` attached
  to a response: what decoding the body into the expected shape would
  yield.  `json.Marshal` of the outgoing body and
  `http.NewRequestWithContext` are modelled by boolean success flags
  (`marshalOk`, `reqOk`), since only success or failure of those steps is
  observable in the control flow.
- The external HTTP transport capability (`c.client.Do`) is modelled by a
  `DoOutcome`: either a transport error, whose flag records whether a
  caller-supplied deadline elapsed, or a response with a status code and
  a body.  The outgoing request itself (host, path, serialized body) is
  consumed by the transport and its effect is already summarized by the
  supplied outcome.
- The pooled `*http.Client` handle held by a client record is modelled by
  an allocation tag (`Nat`), since only its identity is observable here.
- A Go `error` result is `Option Error` (`none` is the nil error); a Go
  `(T, error)` result is `Except Error T` when the success value is
  returned exactly on the nil-error paths, and a pair when both
  components matter (`Exists`).
-/

namespace GoCreditDB

/-- Domain error from errors.go: a diagnostic message and a category
string. -/
structure Error where
  Message : String
  Category : String
deriving DecidableEq, Repr

/-- Category constants from errors.go. -/
def CategoryNotFound : String := "NotFound"

def CategoryBadRequest : String := "BadRequest"

def CategoryTimeout : String := "Timeout"

def CategoryServiceUnavailable : String := "ServiceUnavailable"

def CategoryInternalError : String := "InternalError"

/-- Constructor NewError from errors.go. -/
def NewError (message : String) (category : String) : Error :=
  { Message := message, Category := category }

/-- Outbound status-code mapping from errors.go: a switch on the
category, with default 500. -/
def Error.StatusCode (e : Error) : Nat :=
  if e.Category = CategoryNotFound then 404
  else if e.Category = CategoryBadRequest then 400
  else if e.Category = CategoryTimeout then 408
  else if e.Category = CategoryServiceUnavailable then 503
  else 500

/-- Error values from the var block of creditdb.go. -/
def ErrNotFound : Error := NewError "resource not found" CategoryNotFound

def ErrBadRequest : Error := NewError "bad request" CategoryBadRequest

def ErrInternalError : Error := NewError "internal server error" CategoryInternalError

def ErrTimeout : Error := NewError "timeout" CategoryTimeout

def ErrServiceUnavailable : Error := NewError "service unavailable" CategoryServiceUnavailable

/-- Record type Line from creditdb.go. -/
structure Line where
  Key : String
  Value : String
deriving DecidableEq, Repr

/-- Page-result type Page from creditdb.go; the Go field named `Page` is
spelled `PageNumber` here because the structure itself takes the name. -/
structure Page where
  Status : String
  PageNumber : Nat
  Result : List Line
deriving DecidableEq, Repr

/-- Configuration record (Go type `config`). -/
structure Config where
  host : String
  currentPage : Nat
deriving DecidableEq, Repr

/-- Client record (Go type `CreditDB`); `client` is the allocation tag of
the pooled transport handle. -/
structure CreditDB where
  config : Config
  client : Nat
deriving DecidableEq, Repr

def defaultHost : String := "http://localhost:5622"

def defaultPage : Nat := 0

/-- Outcome of deserializing a response body into the shape `α` expected
by an operation (the external JSON capability). -/
inductive DecodeResult (α : Type) where
  | ok (a : α)
  | err
deriving DecidableEq, Repr

/-- HTTP response as observed by an operation: status code, and what
decoding the body yields. -/
structure Response (α : Type) where
  StatusCode : Nat
  body : DecodeResult α
deriving DecidableEq, Repr

/-- Outcome of `c.client.Do`: a transport error whose flag records
whether a caller-supplied deadline elapsed, or a response. -/
inductive DoOutcome (α : Type) where
  | doErr (deadlineElapsed : Bool)
  | ok (resp : Response α)
deriving DecidableEq, Repr

/-- SetLine: empty key or value fails with BadRequest before any
transport step; marshal, request-construction and transport failures map
to InternalError; a non-200 response maps to BadRequest; a 200 response
succeeds. -/
def CreditDB.SetLine (c : CreditDB) (key value : String)
    (marshalOk reqOk : Bool) (outcome : DoOutcome Unit) : Option Error :=
  if key = "" ∨ value = "" then some ErrBadRequest
  else if marshalOk = false then some ErrInternalError
  else if reqOk = false then some ErrInternalError
  else
    match outcome with
    | .doErr _ => some ErrInternalError
    | .ok resp => if resp.StatusCode ≠ 200 then some ErrBadRequest else none

/-- GetLine: empty key fails with BadRequest before any transport step;
marshal, request-construction and transport failures map to
InternalError; status 404 maps to NotFound, any other non-200 status to
BadRequest; on 200 the body is decoded as a Line, a decode failure maps
to InternalError and a decoded Line is returned. -/
def CreditDB.GetLine (c : CreditDB) (key : String)
    (marshalOk reqOk : Bool) (outcome : DoOutcome Line) : Except Error Line :=
  if key = "" then .error ErrBadRequest
  else if marshalOk = false then .error ErrInternalError
  else if reqOk = false then .error ErrInternalError
  else
    match outcome with
    | .doErr _ => .error ErrInternalError
    | .ok resp =>
      if resp.StatusCode = 404 then .error ErrNotFound
      else if resp.StatusCode ≠ 200 then .error ErrBadRequest
      else
        match resp.body with
        | .ok data => .ok data
        | .err => .error ErrInternalError

/-- GetAllLines: marshal, request-construction and transport failures map
to InternalError; the body is decoded as a Page without consulting the
HTTP status code, a decode failure maps to InternalError, a payload whose
Status differs from "OK" maps to BadRequest, and otherwise the Result
sequence is returned. -/
def CreditDB.GetAllLines (c : CreditDB)
    (marshalOk reqOk : Bool) (outcome : DoOutcome Page) : Except Error (List Line) :=
  if marshalOk = false then .error ErrInternalError
  else if reqOk = false then .error ErrInternalError
  else
    match outcome with
    | .doErr _ => .error ErrInternalError
    | .ok resp =>
      match resp.body with
      | .err => .error ErrInternalError
      | .ok response =>
        if response.Status ≠ "OK" then .error ErrBadRequest
        else .ok response.Result

/-- DeleteLine: empty key fails with BadRequest before any transport
step; marshal, request-construction and transport failures map to
InternalError; status 404 maps to NotFound, any other non-200 status to
BadRequest, and status 200 succeeds. -/
def CreditDB.DeleteLine (c : CreditDB) (key : String)
    (marshalOk reqOk : Bool) (outcome : DoOutcome Unit) : Option Error :=
  if key = "" then some ErrBadRequest
  else if marshalOk = false then some ErrInternalError
  else if reqOk = false then some ErrInternalError
  else
    match outcome with
    | .doErr _ => some ErrInternalError
    | .ok resp =>
      if resp.StatusCode = 404 then some ErrNotFound
      else if resp.StatusCode ≠ 200 then some ErrBadRequest
      else none

/-- Flush: marshal, request-construction and transport failures map to
InternalError, and so does any non-200 response; a 200 response
succeeds. -/
def CreditDB.Flush (c : CreditDB)
    (marshalOk reqOk : Bool) (outcome : DoOutcome Unit) : Option Error :=
  if marshalOk = false then some ErrInternalError
  else if reqOk = false then some ErrInternalError
  else
    match outcome with
    | .doErr _ => some ErrInternalError
    | .ok resp => if resp.StatusCode ≠ 200 then some ErrInternalError else none

/-- Ping sends no body, so there is no marshal step.  The body is decoded
as a generic JSON object without consulting the HTTP status code; the
decode shape is the string found at key "ping", if any (`none` when the
key is absent or its value is not a string).  Request-construction,
transport and decode failures map to InternalError, as does a missing
"ping" string; otherwise that string is returned. -/
def CreditDB.Ping (c : CreditDB)
    (reqOk : Bool) (outcome : DoOutcome (Option String)) : Except Error String :=
  if reqOk = false then .error ErrInternalError
  else
    match outcome with
    | .doErr _ => .error ErrInternalError
    | .ok resp =>
      match resp.body with
      | .err => .error ErrInternalError
      | .ok pingValue =>
        match pingValue with
        | some v => .ok v
        | none => .error ErrInternalError

/-- Health sends a bare GET to the host root: request-construction and
transport failures map to InternalError, any non-200 status maps to
InternalError, and a 200 response succeeds.  No body is interpreted. -/
def CreditDB.Health (c : CreditDB)
    (reqOk : Bool) (outcome : DoOutcome Unit) : Option Error :=
  if reqOk = false then some ErrInternalError
  else
    match outcome with
    | .doErr _ => some ErrInternalError
    | .ok resp => if resp.StatusCode ≠ 200 then some ErrInternalError else none

/-- Exists delegates to GetLine with the same key and transport
interaction: a NotFound error becomes (false, nil), any other error is
propagated with false, and a success becomes (true, nil). -/
def CreditDB.Exists (c : CreditDB) (key : String)
    (marshalOk reqOk : Bool) (outcome : DoOutcome Line) : Bool × Option Error :=
  match c.GetLine key marshalOk reqOk outcome with
  | .error err => if err = ErrNotFound then (false, none) else (false, some err)
  | .ok _ => (true, none)

/-- WithHost: an empty argument is replaced by the current host, then the
host field is set; the same client record is returned. -/
def CreditDB.WithHost (c : CreditDB) (host : String) : CreditDB :=
  let host := if host = "" then c.config.host else host
  { c with config := { c.config with host := host } }

/-- WithPage sets the current page and returns the same client record. -/
def CreditDB.WithPage (c : CreditDB) (page : Nat) : CreditDB :=
  { c with config := { c.config with currentPage := page } }

/-- GetCurrentPage exposes the active page selector. -/
def CreditDB.GetCurrentPage (c : CreditDB) : Nat :=
  c.config.currentPage

/-- Close releases idle pooled connections and always returns the nil
error. -/
def CreditDB.Close (c : CreditDB) : Option Error :=
  none

/-- Backoff policy record of the external backoff capability; durations
are in milliseconds. -/
structure ExponentialBackOff where
  InitialInterval : Nat
  MaxElapsedTime : Nat
  MaxInterval : Nat
deriving DecidableEq, Repr

/-- Backoff policy configured by NewClient: initial interval 100ms, total
elapsed budget 5s, interval cap 30s. -/
def newClientBackoff : ExponentialBackOff :=
  { InitialInterval := 100, MaxElapsedTime := 5000, MaxInterval := 30000 }

/-- Allocation tag of the transport handle built for the probing client
(Go local `clonedClient`). -/
def clonedClientTag : Nat := 0

/-- Allocation tag of the transport handle built for the returned client
(Go local `client`); a distinct allocation from `clonedClientTag`. -/
def clientTag : Nat := 1

/-- Retry semantics of the external backoff capability at its interface
boundary: given the outcomes of the probe attempts that fit within the
elapsed budget of the configured policy, Retry reports the nil error as
soon as some attempt succeeds; once the budget is exhausted with every
attempt failing, it reports the failure of the last attempt (the probe
operation here only ever fails with InternalError). -/
def backoffRetry (probes : List (Option Error)) : Option Error :=
  if probes.any (fun r => r = none) then none else some ErrInternalError

/-- The probing client built by NewClient (Go local `clone`): default
configuration on the throwaway transport. -/
def probingClient : CreditDB :=
  { config := { host := defaultHost, currentPage := defaultPage }, client := clonedClientTag }

/-- NewClient: builds the backoff policy `newClientBackoff`, a transport
`clientTag` for the eventual client and a throwaway transport
`clonedClientTag` for a probing client pointed at the default
configuration, then retries the probing client's Health under the
policy.  Each probe attempt is an interaction of Health with the
transport, supplied here as a (reqOk, outcome) pair.  If retrying fails
the constructor returns the nil client; otherwise it returns a fresh
client on the other transport with the default configuration. -/
def NewClient (attempts : List (Bool × DoOutcome Unit)) : Option CreditDB :=
  let probes := attempts.map (fun a => probingClient.Health a.1 a.2)
  match backoffRetry probes with
  | some _ => none
  | none =>
    some { config := { host := defaultHost, currentPage := defaultPage }, client := clientTag }

/-- A category string is one of the five fixed categories. -/
def catOk (e : Error) : Bool :=
  e.Category = CategoryNotFound ∨ e.Category = CategoryBadRequest ∨
    e.Category = CategoryTimeout ∨ e.Category = CategoryServiceUnavailable ∨
    e.Category = CategoryInternalError

/-- A Go error result is nil or classified into the taxonomy. -/
def optErrOk : Option Error → Bool
  | none => true
  | some e => catOk e

/-- A Go (T, error) result is a success or a classified error. -/
def exceptOk {α : Type} : Except Error α → Bool
  | .ok _ => true
  | .error e => catOk e

/-- C7: the outbound status-code mapping is a total function of the
category: NotFound maps to 404, BadRequest to 400, Timeout to 408,
ServiceUnavailable to 503, and every other category string, InternalError
included, to 500. -/
theorem C7_status_code_mapping :
    (∀ m : String, (NewError m CategoryNotFound).StatusCode = 404) ∧
    (∀ m : String, (NewError m CategoryBadRequest).StatusCode = 400) ∧
    (∀ m : String, (NewError m CategoryTimeout).StatusCode = 408) ∧
    (∀ m : String, (NewError m CategoryServiceUnavailable).StatusCode = 503) ∧
    (∀ m : String, (NewError m CategoryInternalError).StatusCode = 500) ∧
    (∀ m cat : String, cat ≠ CategoryNotFound → cat ≠ CategoryBadRequest →
      cat ≠ CategoryTimeout → cat ≠ CategoryServiceUnavailable →
      (NewError m cat).StatusCode = 500) := by
  refine ⟨fun m => rfl, fun m => rfl, fun m => rfl, fun m => rfl, fun m => rfl, ?_⟩
  intro m cat h1 h2 h3 h4
  simp [NewError, Error.StatusCode, h1, h2, h3, h4]

/-- Witness for C7 at the concrete category "Weird". -/
theorem C7_status_code_mapping_witness :
    (NewError "x" "Weird").StatusCode = 500 :=
  C7_status_code_mapping.2.2.2.2.2 "x" "Weird"
    (by decide) (by decide) (by decide) (by decide)

/-- Concrete client used to evaluate operations on closed inputs. -/
def sampleClient : CreditDB :=
  { config := { host := defaultHost, currentPage := defaultPage }, client := clientTag }

theorem setLine_catOk (c : CreditDB) (key value : String)
    (marshalOk reqOk : Bool) (o : DoOutcome Unit) :
    optErrOk (c.SetLine key value marshalOk reqOk o) = true := by
  unfold CreditDB.SetLine
  repeat' split
  all_goals decide

theorem getLine_catOk (c : CreditDB) (key : String)
    (marshalOk reqOk : Bool) (o : DoOutcome Line) :
    exceptOk (c.GetLine key marshalOk reqOk o) = true := by
  unfold CreditDB.GetLine
  repeat' split
  all_goals rfl

theorem getAllLines_catOk (c : CreditDB)
    (marshalOk reqOk : Bool) (o : DoOutcome Page) :
    exceptOk (c.GetAllLines marshalOk reqOk o) = true := by
  unfold CreditDB.GetAllLines
  repeat' split
  all_goals rfl

theorem deleteLine_catOk (c : CreditDB) (key : String)
    (marshalOk reqOk : Bool) (o : DoOutcome Unit) :
    optErrOk (c.DeleteLine key marshalOk reqOk o) = true := by
  unfold CreditDB.DeleteLine
  repeat' split
  all_goals decide

theorem flush_catOk (c : CreditDB)
    (marshalOk reqOk : Bool) (o : DoOutcome Unit) :
    optErrOk (c.Flush marshalOk reqOk o) = true := by
  unfold CreditDB.Flush
  repeat' split
  all_goals decide

theorem ping_catOk (c : CreditDB)
    (reqOk : Bool) (o : DoOutcome (Option String)) :
    exceptOk (c.Ping reqOk o) = true := by
  unfold CreditDB.Ping
  repeat' split
  all_goals rfl

theorem health_catOk (c : CreditDB)
    (reqOk : Bool) (o : DoOutcome Unit) :
    optErrOk (c.Health reqOk o) = true := by
  unfold CreditDB.Health
  repeat' split
  all_goals decide

theorem exists_catOk (c : CreditDB) (key : String)
    (marshalOk reqOk : Bool) (o : DoOutcome Line) :
    optErrOk (c.Exists key marshalOk reqOk o).2 = true := by
  have h := getLine_catOk c key marshalOk reqOk o
  unfold CreditDB.Exists
  cases hg : c.GetLine key marshalOk reqOk o with
  | ok l => rfl
  | error e =>
    rw [hg] at h
    simp only [exceptOk] at h
    by_cases hne : e = ErrNotFound
    · simp [hne, optErrOk]
    · simp [hne, optErrOk, h]

/-- C1: for every operation of the client, every input and every
transport outcome, a non-nil error result is a Domain Error whose
category belongs to the fixed five-element taxonomy. -/
theorem C1_every_error_is_classified :
    ∀ (c : CreditDB) (key value : String) (marshalOk reqOk : Bool)
      (o1 o2 o3 o4 : DoOutcome Unit) (o5 o6 : DoOutcome Line)
      (o7 : DoOutcome Page) (o8 : DoOutcome (Option String)),
      optErrOk (c.SetLine key value marshalOk reqOk o1) = true ∧
      exceptOk (c.GetLine key marshalOk reqOk o5) = true ∧
      exceptOk (c.GetAllLines marshalOk reqOk o7) = true ∧
      optErrOk (c.DeleteLine key marshalOk reqOk o2) = true ∧
      optErrOk (c.Flush marshalOk reqOk o3) = true ∧
      exceptOk (c.Ping reqOk o8) = true ∧
      optErrOk (c.Health reqOk o4) = true ∧
      optErrOk (c.Exists key marshalOk reqOk o6).2 = true := by
  intro c key value marshalOk reqOk o1 o2 o3 o4 o5 o6 o7 o8
  exact ⟨setLine_catOk c key value marshalOk reqOk o1,
    getLine_catOk c key marshalOk reqOk o5,
    getAllLines_catOk c marshalOk reqOk o7,
    deleteLine_catOk c key marshalOk reqOk o2,
    flush_catOk c marshalOk reqOk o3,
    ping_catOk c reqOk o8,
    health_catOk c reqOk o4,
    exists_catOk c key marshalOk reqOk o6⟩

/-- C2: construction probes Health on the throwaway transport under a
backoff policy with initial interval 100ms, interval cap 30s and elapsed
budget 5s; a successful probe yields a client on a transport distinct
from the probing one with the default host and page 0, and exhausting
the budget without a success yields no usable client. -/
theorem C2_construction_health_gate :
    newClientBackoff.InitialInterval = 100 ∧
    newClientBackoff.MaxInterval = 30000 ∧
    newClientBackoff.MaxElapsedTime = 5000 ∧
    (∀ attempts : List (Bool × DoOutcome Unit),
      (∃ a ∈ attempts, probingClient.Health a.1 a.2 = none) →
        NewClient attempts =
          some { config := { host := defaultHost, currentPage := 0 },
                 client := clientTag }) ∧
    (∀ (attempts : List (Bool × DoOutcome Unit)) (cdb : CreditDB),
      NewClient attempts = some cdb → cdb.client ≠ probingClient.client) ∧
    (∀ attempts : List (Bool × DoOutcome Unit),
      (∀ a ∈ attempts, probingClient.Health a.1 a.2 ≠ none) →
        NewClient attempts = none) := by
  refine ⟨rfl, rfl, rfl, ?_, ?_, ?_⟩
  · rintro attempts ⟨a, ha, hnone⟩
    have hany : (attempts.map (fun a => probingClient.Health a.1 a.2)).any
        (fun r => r = none) = true := by
      rw [List.any_eq_true]
      exact ⟨probingClient.Health a.1 a.2, List.mem_map_of_mem _ ha, by simp [hnone]⟩
    simp [NewClient, backoffRetry, hany, defaultPage]
  · intro attempts cdb h
    unfold NewClient backoffRetry at h
    by_cases hb : ((attempts.map fun a => probingClient.Health a.1 a.2).any fun r => r = none) = true
    · simp only [hb, if_true, Option.some.injEq] at h
      subst h
      decide
    · simp only [Bool.not_eq_true] at hb
      simp [hb] at h
  · intro attempts hall
    have hany : (attempts.map (fun a => probingClient.Health a.1 a.2)).any
        (fun r => r = none) = false := by
      rw [List.any_eq_false]
      intro r hr
      rcases List.mem_map.1 hr with ⟨a, ha, rfl⟩
      simpa using hall a ha
    simp [NewClient, backoffRetry, hany]

/-- Witness for C2: one successful probe yields the fresh client on the
non-probing transport; a single failing probe with the budget spent
yields none. -/
theorem C2_construction_health_gate_witness :
    NewClient [(true, DoOutcome.ok ⟨200, DecodeResult.ok ()⟩)] =
      some { config := { host := defaultHost, currentPage := 0 }, client := clientTag } ∧
    clientTag ≠ probingClient.client ∧
    NewClient [(true, DoOutcome.doErr false)] = none := by
  refine ⟨?_, ?_, ?_⟩
  · exact C2_construction_health_gate.2.2.2.1 _
      ⟨(true, DoOutcome.ok ⟨200, DecodeResult.ok ()⟩), by simp, by decide⟩
  · exact C2_construction_health_gate.2.2.2.2.1
      [(true, DoOutcome.ok ⟨200, DecodeResult.ok ()⟩)]
      { config := { host := defaultHost, currentPage := 0 }, client := clientTag }
      (by decide)
  · refine C2_construction_health_gate.2.2.2.2.2 _ ?_
    intro a ha
    simp only [List.mem_singleton] at ha
    subst ha
    decide

/-- C3: GetLine rejects an empty key with BadRequest independently of the
transport, maps status 404 to NotFound, any other non-200 status to
BadRequest, and on 200 maps a decode failure to InternalError and a
decoded body to success; DeleteLine likewise maps an empty key to
BadRequest, 404 to NotFound, other non-200 to BadRequest and 200 to
success. -/
theorem C3_getline_deleteline_mapping :
    (∀ (c : CreditDB) (marshalOk reqOk : Bool) (o : DoOutcome Line),
      c.GetLine "" marshalOk reqOk o = .error ErrBadRequest) ∧
    (∀ (c : CreditDB) (key : String) (body : DecodeResult Line), key ≠ "" →
      c.GetLine key true true (.ok ⟨404, body⟩) = .error ErrNotFound) ∧
    (∀ (c : CreditDB) (key : String) (s : Nat) (body : DecodeResult Line),
      key ≠ "" → s ≠ 404 → s ≠ 200 →
      c.GetLine key true true (.ok ⟨s, body⟩) = .error ErrBadRequest) ∧
    (∀ (c : CreditDB) (key : String), key ≠ "" →
      c.GetLine key true true (.ok ⟨200, .err⟩) = .error ErrInternalError) ∧
    (∀ (c : CreditDB) (key : String) (data : Line), key ≠ "" →
      c.GetLine key true true (.ok ⟨200, .ok data⟩) = .ok data) ∧
    (∀ (c : CreditDB) (marshalOk reqOk : Bool) (o : DoOutcome Unit),
      c.DeleteLine "" marshalOk reqOk o = some ErrBadRequest) ∧
    (∀ (c : CreditDB) (key : String) (body : DecodeResult Unit), key ≠ "" →
      c.DeleteLine key true true (.ok ⟨404, body⟩) = some ErrNotFound) ∧
    (∀ (c : CreditDB) (key : String) (s : Nat) (body : DecodeResult Unit),
      key ≠ "" → s ≠ 404 → s ≠ 200 →
      c.DeleteLine key true true (.ok ⟨s, body⟩) = some ErrBadRequest) ∧
    (∀ (c : CreditDB) (key : String) (body : DecodeResult Unit), key ≠ "" →
      c.DeleteLine key true true (.ok ⟨200, body⟩) = none) := by
  refine ⟨?_, ?_, ?_, ?_, ?_, ?_, ?_, ?_, ?_⟩
  · intro c marshalOk reqOk o
    simp [CreditDB.GetLine]
  · intro c key body hk
    simp [CreditDB.GetLine, hk]
  · intro c key s body hk h404 h200
    simp [CreditDB.GetLine, hk, h404, h200]
  · intro c key hk
    simp [CreditDB.GetLine, hk]
  · intro c key data hk
    simp [CreditDB.GetLine, hk]
  · intro c marshalOk reqOk o
    simp [CreditDB.DeleteLine]
  · intro c key body hk
    simp [CreditDB.DeleteLine, hk]
  · intro c key s body hk h404 h200
    simp [CreditDB.DeleteLine, hk, h404, h200]
  · intro c key body hk
    simp [CreditDB.DeleteLine, hk]

/-- Witness for C3 on concrete keys and responses. -/
theorem C3_getline_deleteline_mapping_witness :
    sampleClient.GetLine "" true true (.doErr false) = .error ErrBadRequest ∧
    sampleClient.GetLine "k" true true (.ok ⟨404, .err⟩) = .error ErrNotFound ∧
    sampleClient.GetLine "k" true true (.ok ⟨500, .err⟩) = .error ErrBadRequest ∧
    sampleClient.GetLine "k" true true (.ok ⟨200, .err⟩) = .error ErrInternalError ∧
    sampleClient.GetLine "k" true true (.ok ⟨200, .ok ⟨"k", "v"⟩⟩) = .ok ⟨"k", "v"⟩ ∧
    sampleClient.DeleteLine "" true true (.doErr false) = some ErrBadRequest ∧
    sampleClient.DeleteLine "k" true true (.ok ⟨404, .err⟩) = some ErrNotFound ∧
    sampleClient.DeleteLine "k" true true (.ok ⟨500, .err⟩) = some ErrBadRequest ∧
    sampleClient.DeleteLine "k" true true (.ok ⟨200, .err⟩) = none :=
  ⟨C3_getline_deleteline_mapping.1 sampleClient true true _,
   C3_getline_deleteline_mapping.2.1 sampleClient "k" _ (by decide),
   C3_getline_deleteline_mapping.2.2.1 sampleClient "k" 500 _ (by decide) (by decide) (by decide),
   C3_getline_deleteline_mapping.2.2.2.1 sampleClient "k" (by decide),
   C3_getline_deleteline_mapping.2.2.2.2.1 sampleClient "k" ⟨"k", "v"⟩ (by decide),
   C3_getline_deleteline_mapping.2.2.2.2.2.1 sampleClient true true _,
   C3_getline_deleteline_mapping.2.2.2.2.2.2.1 sampleClient "k" _ (by decide),
   C3_getline_deleteline_mapping.2.2.2.2.2.2.2.1 sampleClient "k" 500 _ (by decide) (by decide) (by decide),
   C3_getline_deleteline_mapping.2.2.2.2.2.2.2.2 sampleClient "k" _ (by decide)⟩

/-- C4: SetLine rejects an empty key or value with BadRequest
independently of the transport; with both non-empty, a serialization
failure or a transport failure maps to InternalError, a non-200 response
maps to BadRequest, and a 200 response succeeds. -/
theorem C4_setline_mapping :
    (∀ (c : CreditDB) (value : String) (marshalOk reqOk : Bool) (o : DoOutcome Unit),
      c.SetLine "" value marshalOk reqOk o = some ErrBadRequest) ∧
    (∀ (c : CreditDB) (key : String) (marshalOk reqOk : Bool) (o : DoOutcome Unit),
      c.SetLine key "" marshalOk reqOk o = some ErrBadRequest) ∧
    (∀ (c : CreditDB) (key value : String) (reqOk : Bool) (o : DoOutcome Unit),
      key ≠ "" → value ≠ "" →
      c.SetLine key value false reqOk o = some ErrInternalError) ∧
    (∀ (c : CreditDB) (key value : String) (b : Bool),
      key ≠ "" → value ≠ "" →
      c.SetLine key value true true (.doErr b) = some ErrInternalError) ∧
    (∀ (c : CreditDB) (key value : String) (s : Nat) (body : DecodeResult Unit),
      key ≠ "" → value ≠ "" → s ≠ 200 →
      c.SetLine key value true true (.ok ⟨s, body⟩) = some ErrBadRequest) ∧
    (∀ (c : CreditDB) (key value : String) (body : DecodeResult Unit),
      key ≠ "" → value ≠ "" →
      c.SetLine key value true true (.ok ⟨200, body⟩) = none) := by
  refine ⟨?_, ?_, ?_, ?_, ?_, ?_⟩
  · intro c value marshalOk reqOk o
    simp [CreditDB.SetLine]
  · intro c key marshalOk reqOk o
    simp [CreditDB.SetLine]
  · intro c key value reqOk o hk hv
    simp [CreditDB.SetLine, hk, hv]
  · intro c key value b hk hv
    simp [CreditDB.SetLine, hk, hv]
  · intro c key value s body hk hv hs
    simp [CreditDB.SetLine, hk, hv, hs]
  · intro c key value body hk hv
    simp [CreditDB.SetLine, hk, hv]

/-- Witness for C4 on concrete keys, values and responses. -/
theorem C4_setline_mapping_witness :
    sampleClient.SetLine "" "v" true true (.doErr false) = some ErrBadRequest ∧
    sampleClient.SetLine "k" "" true true (.doErr false) = some ErrBadRequest ∧
    sampleClient.SetLine "k" "v" false true (.doErr false) = some ErrInternalError ∧
    sampleClient.SetLine "k" "v" true true (.doErr false) = some ErrInternalError ∧
    sampleClient.SetLine "k" "v" true true (.ok ⟨500, .err⟩) = some ErrBadRequest ∧
    sampleClient.SetLine "k" "v" true true (.ok ⟨200, .err⟩) = none :=
  ⟨C4_setline_mapping.1 sampleClient "v" true true _,
   C4_setline_mapping.2.1 sampleClient "k" true true _,
   C4_setline_mapping.2.2.1 sampleClient "k" "v" true _ (by decide) (by decide),
   C4_setline_mapping.2.2.2.1 sampleClient "k" "v" false (by decide) (by decide),
   C4_setline_mapping.2.2.2.2.1 sampleClient "k" "v" 500 _ (by decide) (by decide) (by decide),
   C4_setline_mapping.2.2.2.2.2 sampleClient "k" "v" _ (by decide) (by decide)⟩

/-- C5: the outcome of GetAllLines is decided only by the decoded
payload: the result is invariant under the HTTP status code, a payload
whose status differs from "OK" fails with BadRequest, a payload with
status "OK" returns its ordered Records, and a decode failure maps to
InternalError. -/
theorem C5_getalllines_payload_status :
    (∀ (c : CreditDB) (s₁ s₂ : Nat) (body : DecodeResult Page),
      c.GetAllLines true true (.ok ⟨s₁, body⟩) = c.GetAllLines true true (.ok ⟨s₂, body⟩)) ∧
    (∀ (c : CreditDB) (s : Nat) (p : Page), p.Status ≠ "OK" →
      c.GetAllLines true true (.ok ⟨s, .ok p⟩) = .error ErrBadRequest) ∧
    (∀ (c : CreditDB) (s : Nat) (p : Page), p.Status = "OK" →
      c.GetAllLines true true (.ok ⟨s, .ok p⟩) = .ok p.Result) ∧
    (∀ (c : CreditDB) (s : Nat),
      c.GetAllLines true true (.ok ⟨s, .err⟩) = .error ErrInternalError) := by
  refine ⟨fun c s₁ s₂ body => rfl, ?_, ?_, fun c s => rfl⟩
  · intro c s p hp
    simp [CreditDB.GetAllLines, hp]
  · intro c s p hp
    simp [CreditDB.GetAllLines, hp]

/-- Witness for C5 on concrete payloads, one carried by a 500 response. -/
theorem C5_getalllines_payload_status_witness :
    sampleClient.GetAllLines true true (.ok ⟨500, .ok ⟨"FAIL", 0, []⟩⟩) = .error ErrBadRequest ∧
    sampleClient.GetAllLines true true (.ok ⟨500, .ok ⟨"OK", 0, [⟨"k", "v"⟩]⟩⟩) = .ok [⟨"k", "v"⟩] :=
  ⟨C5_getalllines_payload_status.2.1 sampleClient 500 ⟨"FAIL", 0, []⟩ (by decide),
   C5_getalllines_payload_status.2.2.1 sampleClient 500 ⟨"OK", 0, [⟨"k", "v"⟩]⟩ (by decide)⟩

/-- C6 counterexample: a transport failure attributable to the
caller-supplied deadline (deadlineElapsed true) makes GetLine return
ErrInternalError, whose category is not Timeout, contradicting the claim
that a deadline that elapsed is reported with category Timeout. -/
theorem C6_counterexample :
    sampleClient.GetLine "k" true true (.doErr true) = .error ErrInternalError ∧
    ErrInternalError.Category = CategoryInternalError ∧
    CategoryInternalError ≠ CategoryTimeout := by
  refine ⟨rfl, rfl, by decide⟩

/-- C6 as amended: every transport-level failure, whether or not the
caller-supplied deadline elapsed, is reported as InternalError by every
operation; the Timeout category is never produced. -/
theorem C6_amended_transport_failures_internal :
    (∀ (c : CreditDB) (key value : String) (b : Bool), key ≠ "" → value ≠ "" →
      c.SetLine key value true true (.doErr b) = some ErrInternalError) ∧
    (∀ (c : CreditDB) (key : String) (b : Bool), key ≠ "" →
      c.GetLine key true true (.doErr b) = .error ErrInternalError) ∧
    (∀ (c : CreditDB) (b : Bool),
      c.GetAllLines true true (.doErr b) = .error ErrInternalError) ∧
    (∀ (c : CreditDB) (key : String) (b : Bool), key ≠ "" →
      c.DeleteLine key true true (.doErr b) = some ErrInternalError) ∧
    (∀ (c : CreditDB) (b : Bool),
      c.Flush true true (.doErr b) = some ErrInternalError) ∧
    (∀ (c : CreditDB) (b : Bool),
      c.Ping true (.doErr b) = .error ErrInternalError) ∧
    (∀ (c : CreditDB) (b : Bool),
      c.Health true (.doErr b) = some ErrInternalError) ∧
    (∀ (c : CreditDB) (key : String) (b : Bool), key ≠ "" →
      c.Exists key true true (.doErr b) = (false, some ErrInternalError)) := by
  refine ⟨?_, ?_, fun c b => rfl, ?_, fun c b => rfl, fun c b => rfl, fun c b => rfl, ?_⟩
  · intro c key value b hk hv
    simp [CreditDB.SetLine, hk, hv]
  · intro c key b hk
    simp [CreditDB.GetLine, hk]
  · intro c key b hk
    simp [CreditDB.DeleteLine, hk]
  · intro c key b hk
    simp [CreditDB.Exists, CreditDB.GetLine, hk, ErrInternalError, ErrNotFound, NewError]

/-- Witness for the amended C6 on a concrete deadline-elapsed failure. -/
theorem C6_amended_transport_failures_internal_witness :
    sampleClient.SetLine "k" "v" true true (.doErr true) = some ErrInternalError ∧
    sampleClient.GetLine "k" true true (.doErr true) = .error ErrInternalError ∧
    sampleClient.DeleteLine "k" true true (.doErr true) = some ErrInternalError ∧
    sampleClient.Exists "k" true true (.doErr true) = (false, some ErrInternalError) :=
  ⟨C6_amended_transport_failures_internal.1 sampleClient "k" "v" true (by decide) (by decide),
   C6_amended_transport_failures_internal.2.1 sampleClient "k" true (by decide),
   C6_amended_transport_failures_internal.2.2.2.1 sampleClient "k" true (by decide),
   C6_amended_transport_failures_internal.2.2.2.2.2.2.2 sampleClient "k" true (by decide)⟩

/-- C8: Exists calls GetLine and translates its outcome: a NotFound
error becomes (false, nil), any other error is propagated unchanged with
false, and a success becomes (true, nil). -/
theorem C8_exists_translates_getline :
    (∀ (c : CreditDB) (key : String) (marshalOk reqOk : Bool) (o : DoOutcome Line),
      c.GetLine key marshalOk reqOk o = .error ErrNotFound →
      c.Exists key marshalOk reqOk o = (false, none)) ∧
    (∀ (c : CreditDB) (key : String) (marshalOk reqOk : Bool) (o : DoOutcome Line) (e : Error),
      c.GetLine key marshalOk reqOk o = .error e → e ≠ ErrNotFound →
      c.Exists key marshalOk reqOk o = (false, some e)) ∧
    (∀ (c : CreditDB) (key : String) (marshalOk reqOk : Bool) (o : DoOutcome Line) (l : Line),
      c.GetLine key marshalOk reqOk o = .ok l →
      c.Exists key marshalOk reqOk o = (true, none)) := by
  refine ⟨?_, ?_, ?_⟩
  · intro c key marshalOk reqOk o h
    simp [CreditDB.Exists, h]
  · intro c key marshalOk reqOk o e h hne
    simp [CreditDB.Exists, h, hne]
  · intro c key marshalOk reqOk o l h
    simp [CreditDB.Exists, h]

/-- Witness for C8 on concrete GetLine outcomes. -/
theorem C8_exists_translates_getline_witness :
    sampleClient.Exists "k" true true (.ok ⟨404, .err⟩) = (false, none) ∧
    sampleClient.Exists "k" true true (.doErr false) = (false, some ErrInternalError) ∧
    sampleClient.Exists "k" true true (.ok ⟨200, .ok ⟨"k", "v"⟩⟩) = (true, none) :=
  ⟨C8_exists_translates_getline.1 sampleClient "k" true true _ rfl,
   C8_exists_translates_getline.2.1 sampleClient "k" true true _ ErrInternalError rfl (by decide),
   C8_exists_translates_getline.2.2 sampleClient "k" true true _ ⟨"k", "v"⟩ rfl⟩

/-- C9: the configuration mutators are builder-style: WithPage sets the
current page, which GetCurrentPage then reports, and leaves the host and
the transport handle of the record untouched; WithHost with a non-empty
argument sets the host and leaves the rest untouched; WithHost with the
empty string returns the record unchanged. -/
theorem C9_builder_mutators :
    (∀ (c : CreditDB) (p : Nat), (c.WithPage p).GetCurrentPage = p) ∧
    (∀ (c : CreditDB) (p : Nat),
      (c.WithPage p).config.host = c.config.host ∧ (c.WithPage p).client = c.client) ∧
    (∀ (c : CreditDB) (h : String), h ≠ "" →
      (c.WithHost h).config.host = h ∧
      (c.WithHost h).config.currentPage = c.config.currentPage ∧
      (c.WithHost h).client = c.client) ∧
    (∀ c : CreditDB, c.WithHost "" = c) := by
  refine ⟨fun c p => rfl, fun c p => ⟨rfl, rfl⟩, ?_, fun c => rfl⟩
  intro c h hne
  refine ⟨?_, ?_, ?_⟩ <;> simp [CreditDB.WithHost, hne]

/-- Witness for C9 at a concrete non-empty host. -/
theorem C9_builder_mutators_witness :
    (sampleClient.WithHost "http://other:1").config.host = "http://other:1" ∧
    (sampleClient.WithHost "http://other:1").config.currentPage = sampleClient.config.currentPage ∧
    (sampleClient.WithHost "http://other:1").client = sampleClient.client :=
  C9_builder_mutators.2.2.1 sampleClient "http://other:1" (by decide)

/-- C10: Ping never inspects the HTTP status code: its result is
invariant under the status code, a decoded body carrying a string at key
"ping" yields that string, and a decoded body without such a string
yields InternalError. -/
theorem C10_ping_ignores_status :
    (∀ (c : CreditDB) (s : Nat) (v : String),
      c.Ping true (.ok ⟨s, .ok (some v)⟩) = .ok v) ∧
    (∀ (c : CreditDB) (s : Nat),
      c.Ping true (.ok ⟨s, .ok none⟩) = .error ErrInternalError) ∧
    (∀ (c : CreditDB) (s₁ s₂ : Nat) (body : DecodeResult (Option String)),
      c.Ping true (.ok ⟨s₁, body⟩) = c.Ping true (.ok ⟨s₂, body⟩)) :=
  ⟨fun c s v => rfl, fun c s => rfl, fun c s₁ s₂ body => rfl⟩

end GoCreditDB
